import Mathlib

/-!
Verification of the sub-frame multiplexing engine of `propixx_flicker.py`.

The module drives a projector that shows 12 gray-scale sub-frames per host
frame, packed into a 3-color x 4-quadrant layout.  We embed the relevant
classes (`QuadStim`, `OpacityFlickerStim`, `BrightnessFlickerStim`) and the
helper `_inv_circle_mask` as pure Lean functions over exact rationals.

Conventions of the embedding:
* Python floats become `ℚ` (exact arithmetic); angles are stored in units of
  `π`, so a stored value `q` denotes the angle `q * π` radians.  The phase
  wrap `np.mod(phase, 2*pi)` becomes `wrap2` (reduction modulo 2 in π-units),
  and the phase increment `freq * 2 * pi / rate / 12` becomes
  `freq * 2 / rate / 12` in π-units.
* Python exceptions become an `Except` value whose error component carries
  the state of the object at the moment the exception is raised (attribute
  assignments made before the raising line persist, as they do in Python).
* The dynamically dispatched sampler `self._next()` (which the class
  docstring invites subclasses to override) is a function parameter `next`
  of the multiplexing step.
-/

/-- `FULL_RES[0] = 1920`. -/
def full_res_x : ℚ := 1920

/-- `FULL_RES[1] = 1080`. -/
def full_res_y : ℚ := 1080

/-- `FRAME_RES[0] = FULL_RES[0] / 2`. -/
def frame_res_x : ℚ := full_res_x / 2

/-- `FRAME_RES[1] = FULL_RES[1] / 2`. -/
def frame_res_y : ℚ := full_res_y / 2

/-- The attributes of one underlying Psychopy stimulus handle that the
multiplexing core reads or writes: a position and an RGB color. -/
structure StimAttrs where
  pos : ℚ × ℚ
  color : ℚ × ℚ × ℚ
  deriving DecidableEq, Repr

/-- The four per-quadrant stimulus handles held in `self.stimuli` (quadrant
order 0..3 as in the Python list). -/
structure Quad (α : Type) where
  q0 : α
  q1 : α
  q2 : α
  q3 : α
  deriving DecidableEq, Repr

/-- The four positions of a `Quad StimAttrs`, in quadrant order. -/
def quadPositions (q : Quad StimAttrs) : (ℚ × ℚ) × (ℚ × ℚ) × (ℚ × ℚ) × (ℚ × ℚ) :=
  (q.q0.pos, q.q1.pos, q.q2.pos, q.q3.pos)

/-- The four colors of a `Quad StimAttrs`, in quadrant order. -/
def quadColors (q : Quad StimAttrs) : (ℚ × ℚ × ℚ) × (ℚ × ℚ × ℚ) × (ℚ × ℚ × ℚ) × (ℚ × ℚ × ℚ) :=
  (q.q0.color, q.q1.color, q.q2.color, q.q3.color)

/-- `QuadStim.set_pos`: quadrant 0 at the base position, quadrant 1 shifted
right by one frame width, quadrant 2 shifted down (negative y) by one frame
height, quadrant 3 shifted by both. -/
def set_pos (q : Quad StimAttrs) (pos : ℚ × ℚ) : Quad StimAttrs :=
  { q0 := { q.q0 with pos := pos }
    q1 := { q.q1 with pos := (pos.1 + frame_res_x, pos.2) }
    q2 := { q.q2 with pos := (pos.1, pos.2 - frame_res_y) }
    q3 := { q.q3 with pos := (pos.1 + frame_res_x, pos.2 - frame_res_y) } }

/-- `QuadStim.__init__`: four structurally identical stimulus handles, then
`set_pos` on the constructor's position argument. -/
def quad_init (proto : StimAttrs) (pos : ℚ × ℚ) : Quad StimAttrs :=
  set_pos ⟨proto, proto, proto, proto⟩ pos

/-- The mutable state of an `OpacityFlickerStim`: the four quadrant handles
plus the oscillator attributes set in `__init__`.  `phase_pi` and `freq_pi`
store `self.phase` and `self._freq` in units of `π` radians. -/
structure OpacityState where
  stimuli : Quad StimAttrs
  flickering : Bool
  phase_pi : ℚ
  flicker_freq : ℚ
  freq_pi : ℚ
  deriving DecidableEq, Repr

/-- `OpacityFlickerStim.__init__`: quadrant setup plus
`flickering = False`, `phase = 0.0`, `flicker_freq = 0`, `_freq = 0`. -/
def opacity_init (proto : StimAttrs) (pos : ℚ × ℚ) : OpacityState :=
  { stimuli := quad_init proto pos
    flickering := false
    phase_pi := 0
    flicker_freq := 0
    freq_pi := 0 }

/-- `np.mod(x, 2*pi)` expressed in π-units: reduce `q` modulo 2 into `[0, 2)`
(`np.mod` takes the sign of the positive divisor). -/
def wrap2 (q : ℚ) : ℚ := q - 2 * (⌊q / 2⌋ : ℚ)

/-- The phase update of `OpacityFlickerStim._next`:
`self.phase += self._freq; self.phase = np.mod(self.phase, 2*np.pi)`,
in π-units. -/
def next_phase (phase_pi freq_pi : ℚ) : ℚ := wrap2 (phase_pi + freq_pi)

/-- `_next`'s effect on the whole stimulus state (the opacity it returns is
computed separately by `opacity_value`). -/
def osc_step (s : OpacityState) : OpacityState :=
  { s with phase_pi := next_phase s.phase_pi s.freq_pi }

/-- The sinusoidal opacity returned by `_next` after the phase update:
`0.5 * (1 + np.cos(self.phase))`, with the stored π-unit phase converted
back to radians. -/
noncomputable def opacity_value (phase_pi : ℚ) : ℝ :=
  0.5 * (1 + Real.cos ((phase_pi : ℝ) * Real.pi))

/-- Iterated phase update: the phase after `n` consecutive `sample()`
(`_next`) calls starting from `phase_pi`, with increment `freq_pi`. -/
def iterate_phase (freq_pi : ℚ) : ℕ → ℚ → ℚ
  | 0, p => p
  | n + 1, p => iterate_phase freq_pi n (next_phase p freq_pi)

/-- `[self._next() for _ in range(12)]` generalized: draw `n` samples in
order from a sampler `next`, threading the state; returns the final state
and the list of samples in draw order. -/
def drawSamples {σ : Type} (next : σ → σ × ℚ) : ℕ → σ → σ × List ℚ
  | 0, s => (s, [])
  | n + 1, s =>
    let p := next s
    let rest := drawSamples next n p.1
    (rest.1, p.2 :: rest.2)

/-- `np.reshape(opacity, [3, 4], order='C')`: split a 12-sample list into
three rows (color channels) of four (quadrants); element `(c, q)` is sample
`4*c + q`. -/
def reshape34 (xs : List ℚ) : List (List ℚ) :=
  [xs.take 4, (xs.drop 4).take 4, ((xs.drop 4).drop 4).take 4]

/-- `colors[:, n_quad]`: the 3-vector in column `q` of a 3×4 grid. -/
def gridColumn (g : List (List ℚ)) (q : ℕ) : ℚ × ℚ × ℚ :=
  ((g.getD 0 []).getD q 0, (g.getD 1 []).getD q 0, (g.getD 2 []).getD q 0)

/-- `OpacityFlickerStim._assign_mux_colors`: set the color of the stimulus
in quadrant `q` to column `q` of the grid. -/
def assign_mux_colors (st : Quad StimAttrs) (colors : List (List ℚ)) : Quad StimAttrs :=
  { q0 := { st.q0 with color := gridColumn colors 0 }
    q1 := { st.q1 with color := gridColumn colors 1 }
    q2 := { st.q2 with color := gridColumn colors 2 }
    q3 := { st.q3 with color := gridColumn colors 3 } }

/-- `OpacityFlickerStim._multiplex`: if `self.flickering`, draw 12 samples
from the (dynamically dispatched) sampler, reshape them to 3×4 and assign
the columns as quadrant colors; otherwise change nothing. -/
def multiplex (next : OpacityState → OpacityState × ℚ) (s : OpacityState) : OpacityState :=
  if s.flickering then
    let p := drawSamples next 12 s
    { p.1 with stimuli := assign_mux_colors p.1.stimuli (reshape34 p.2) }
  else s

/-- The Python exceptions the embedded code can raise. -/
inductive PyError where
  | assertionError
  | zeroDivisionError
  | notImplementedError
  deriving DecidableEq, Repr

/-- `OpacityFlickerStim.flicker(freq)` with the module-level
`THIS.output_frame_rate` passed as `rate`.  Order of effects as in the
source: the `assert freq >= 0` fires before any mutation; `self.phase = 0`
and `self.flicker_freq = freq` are assigned before the increment is
computed, so a division by a zero frame rate raises after those two
assignments (the error carries the state at the raise).  The π-unit
increment is `freq * 2 / rate / 12`. -/
def flicker (rate : ℚ) (freq : ℚ) (s : OpacityState) :
    Except (PyError × OpacityState) OpacityState :=
  if freq < 0 then
    .error (.assertionError, s)
  else
    let s1 := { s with phase_pi := 0, flicker_freq := freq }
    if rate = 0 then
      .error (.zeroDivisionError, s1)
    else
      .ok { s1 with freq_pi := freq * 2 / rate / 12
                    flickering := decide (freq > 0) }

/-- `_inv_circle_mask(size)`: grid coordinates run over
`ogrid[-int(size/2):int(size/2)]` on each axis; a cell holds `-1` where
`x^2 + y^2 <= (size/2)^2` (inside the circle, after the inversion and the
`*2 - 1` rescale) and `+1` outside.  The comparison radius is the exact
`size / 2`, while the coordinate range uses the truncated `int(size/2)`. -/
def inv_circle_mask (size : ℕ) : List (List ℤ) :=
  let r : ℕ := size / 2
  let coords : List ℤ := (List.range (2 * r)).map (fun k : ℕ => (k : ℤ) - (r : ℤ))
  coords.map (fun x =>
    coords.map (fun y =>
      if ((x ^ 2 + y ^ 2 : ℤ) : ℚ) ≤ ((size : ℚ) / 2) ^ 2 then -1 else 1))

/-- The mutable state of a `BrightnessFlickerStim`: the base quadrant
stimuli and oscillator attributes of the parent class, plus the
`image_filters` overlay, the `masked` flag and (when masked) the
`mask_stimuli` overlay together with its precomputed mask bitmap. -/
structure BrightnessState where
  stimuli : Quad StimAttrs
  flickering : Bool
  phase_pi : ℚ
  flicker_freq : ℚ
  freq_pi : ℚ
  image_filters : Quad StimAttrs
  masked : Bool
  mask_stimuli : Option (Quad StimAttrs)
  mask_bitmap : Option (List (List ℤ))
  deriving DecidableEq, Repr

/-- `BrightnessFlickerStim.__init__`: build the filter overlay; if a mask
shape is declared, accept only `'circle'` (building the mask overlay with
the window's background color and the inverted circle bitmap) and raise
`NotImplementedError` otherwise — before the parent constructor runs, so no
object state is produced on failure. -/
def brightness_init (proto : StimAttrs) (pos : ℚ × ℚ) (size : ℕ)
    (winColor : ℚ × ℚ × ℚ) (mask : Option String) :
    Except PyError BrightnessState :=
  let filters := quad_init proto pos
  match mask with
  | some shape =>
    if shape = "circle" then
      .ok { stimuli := quad_init proto pos
            flickering := false
            phase_pi := 0
            flicker_freq := 0
            freq_pi := 0
            image_filters := filters
            masked := true
            mask_stimuli := some (quad_init { proto with color := winColor } pos)
            mask_bitmap := some (inv_circle_mask size) }
    else
      .error .notImplementedError
  | none =>
    .ok { stimuli := quad_init proto pos
          flickering := false
          phase_pi := 0
          flicker_freq := 0
          freq_pi := 0
          image_filters := filters
          masked := false
          mask_stimuli := none
          mask_bitmap := none }

/-- `BrightnessFlickerStim.set_pos`: reposition the base quadrants, then the
filter overlay, then (when `self.masked`) the mask overlay. -/
def brightness_set_pos (s : BrightnessState) (pos : ℚ × ℚ) : BrightnessState :=
  { s with stimuli := set_pos s.stimuli pos
           image_filters := set_pos s.image_filters pos
           mask_stimuli :=
             if s.masked then s.mask_stimuli.map (fun q => set_pos q pos)
             else s.mask_stimuli }

/-- `BrightnessFlickerStim._assign_mux_colors`: rescale the whole grid by
`v * 2 - 1` and assign its columns to the **filter** quadrant colors,
leaving the base stimuli untouched. -/
def brightness_assign_mux_colors (s : BrightnessState) (colors : List (List ℚ)) :
    BrightnessState :=
  let colors2 := colors.map (List.map (fun v => v * 2 - 1))
  { s with image_filters :=
      { q0 := { s.image_filters.q0 with color := gridColumn colors2 0 }
        q1 := { s.image_filters.q1 with color := gridColumn colors2 1 }
        q2 := { s.image_filters.q2 with color := gridColumn colors2 2 }
        q3 := { s.image_filters.q3 with color := gridColumn colors2 3 } } }

/-- The inherited `_multiplex` as it runs on a `BrightnessFlickerStim`:
same 12-sample cycle, but the colors go to the filter overlay via the
overridden `_assign_mux_colors`. -/
def brightness_multiplex (next : BrightnessState → BrightnessState × ℚ)
    (s : BrightnessState) : BrightnessState :=
  if s.flickering then
    let p := drawSamples next 12 s
    brightness_assign_mux_colors p.1 (reshape34 p.2)
  else s

/-- A default stimulus prototype used by concrete witnesses. -/
def protoStim : StimAttrs := { pos := (0, 0), color := (1, 1, 1) }

/-- The concrete unmasked `BrightnessFlickerStim` state produced by
`brightness_init protoStim (3, 4) 8 (0, 0, 0) none`; used by witnesses. -/
def plainBrightness : BrightnessState :=
  { stimuli := quad_init protoStim (3, 4)
    flickering := false
    phase_pi := 0
    flicker_freq := 0
    freq_pi := 0
    image_filters := quad_init protoStim (3, 4)
    masked := false
    mask_stimuli := none
    mask_bitmap := none }

/-- A stub sampler in the sense of the spec's test: its `i`-th call returns
`i`, using the phase attribute as a call counter. -/
def stubNext (s : OpacityState) : OpacityState × ℚ :=
  ({ s with phase_pi := s.phase_pi + 1 }, s.phase_pi)

/-- A freshly constructed stimulus with the flickering flag raised and the
phase attribute zero, so that `stubNext`'s `i`-th sample is `i`. -/
def stubStart : OpacityState :=
  { opacity_init protoStim (3, 4) with flickering := true }

/-! ## Shared helper lemmas -/

theorem wrap2_nonneg (q : ℚ) : 0 ≤ wrap2 q := by
  have h := Int.floor_le (q / 2)
  unfold wrap2
  nlinarith [h]

theorem wrap2_lt_two (q : ℚ) : wrap2 q < 2 := by
  have h := Int.lt_floor_add_one (q / 2)
  unfold wrap2
  nlinarith [h]

theorem drawSamples_length {σ : Type} (next : σ → σ × ℚ) :
    ∀ (n : ℕ) (s : σ), (drawSamples next n s).2.length = n := by
  intro n
  induction n with
  | zero => intro s; rfl
  | succ n ih => intro s; simp [drawSamples, ih]

theorem list_twelve (xs : List ℚ) (h : xs.length = 12) :
    ∃ a0 a1 a2 a3 a4 a5 a6 a7 a8 a9 a10 a11,
      xs = [a0, a1, a2, a3, a4, a5, a6, a7, a8, a9, a10, a11] := by
  rcases xs with _ | ⟨a0, xs⟩; · simp at h
  rcases xs with _ | ⟨a1, xs⟩; · simp at h
  rcases xs with _ | ⟨a2, xs⟩; · simp at h
  rcases xs with _ | ⟨a3, xs⟩; · simp at h
  rcases xs with _ | ⟨a4, xs⟩; · simp at h
  rcases xs with _ | ⟨a5, xs⟩; · simp at h
  rcases xs with _ | ⟨a6, xs⟩; · simp at h
  rcases xs with _ | ⟨a7, xs⟩; · simp at h
  rcases xs with _ | ⟨a8, xs⟩; · simp at h
  rcases xs with _ | ⟨a9, xs⟩; · simp at h
  rcases xs with _ | ⟨a10, xs⟩; · simp at h
  rcases xs with _ | ⟨a11, xs⟩; · simp at h
  rcases xs with _ | ⟨a12, xs⟩
  · exact ⟨a0, a1, a2, a3, a4, a5, a6, a7, a8, a9, a10, a11, rfl⟩
  · simp at h

/-! ## C2: `flicker` with a valid frequency and a positive frame rate -/

/-- C2: for every `hz ≥ 0` and host frame rate `r > 0`, `flicker hz`
succeeds, and in the new state the phase is 0, the phase increment (in
radians) is `hz * 2π / r / 12`, and the flickering flag is `hz > 0`. -/
theorem flicker_sets_state (rate hz : ℚ) (s : OpacityState)
    (hhz : 0 ≤ hz) (hrate : 0 < rate) :
    ∃ s', flicker rate hz s = .ok s' ∧
      s'.phase_pi = 0 ∧
      (s'.freq_pi : ℝ) * Real.pi = (hz : ℝ) * (2 * Real.pi) / (rate : ℝ) / 12 ∧
      s'.flickering = decide (hz > 0) := by
  have h1 : ¬ hz < 0 := not_lt.mpr hhz
  have h2 : rate ≠ 0 := ne_of_gt hrate
  refine ⟨{ s with
      phase_pi := 0
      flicker_freq := hz
      freq_pi := hz * 2 / rate / 12
      flickering := decide (hz > 0) }, ?_, rfl, ?_, rfl⟩
  · simp [flicker, h1, h2]
  · have h3 : ((rate : ℝ)) ≠ 0 := by exact_mod_cast h2
    push_cast
    field_simp
    ring

/-- C2 witness: `flicker 10` at a 120 Hz frame rate on a freshly
constructed stimulus. -/
theorem flicker_sets_state_witness :
    0 ≤ (10 : ℚ) ∧ 0 < (120 : ℚ) ∧
    ∃ s', flicker 120 10 (opacity_init protoStim (3, 4)) = .ok s' ∧
      s'.phase_pi = 0 ∧
      (s'.freq_pi : ℝ) * Real.pi = ((10 : ℚ) : ℝ) * (2 * Real.pi) / ((120 : ℚ) : ℝ) / 12 ∧
      s'.flickering = decide ((10 : ℚ) > 0) :=
  ⟨by norm_num, by norm_num,
   flicker_sets_state 120 10 (opacity_init protoStim (3, 4)) (by norm_num) (by norm_num)⟩

/-! ## C4: `flicker` with a negative frequency -/

/-- C4: for every `hz < 0`, `flicker hz` raises the assertion error
(`assert freq >= 0`) and the state carried at the raise is exactly the
prior state: no attribute was mutated. -/
theorem flicker_negative_rejected (rate hz : ℚ) (s : OpacityState) (h : hz < 0) :
    flicker rate hz s = .error (.assertionError, s) := by
  simp [flicker, h]

/-- C4 witness: `flicker (-1)` on a freshly constructed stimulus leaves it
untouched. -/
theorem flicker_negative_rejected_witness :
    (-1 : ℚ) < 0 ∧
    flicker 120 (-1) (opacity_init protoStim (3, 4)) =
      .error (.assertionError, opacity_init protoStim (3, 4)) :=
  ⟨by norm_num, flicker_negative_rejected 120 (-1) (opacity_init protoStim (3, 4)) (by norm_num)⟩

/-! ## C10: `flicker` before `init()` (zero frame rate) -/

/-- C10: for every `hz > 0`, calling `flicker hz` while the module-level
frame rate still holds its initial value 0 raises `ZeroDivisionError` from
the increment computation `hz * 2π / output_frame_rate / 12`: no `ok`
result is produced and the stored increment `_freq` is not updated (the
state at the raise keeps the prior `freq_pi`, with only the earlier
`phase = 0` and `flicker_freq = hz` assignments having run). -/
theorem flicker_zero_rate_raises (hz : ℚ) (s : OpacityState) (h : 0 < hz) :
    flicker 0 hz s =
      .error (.zeroDivisionError, { s with phase_pi := 0, flicker_freq := hz }) ∧
    ({ s with phase_pi := 0, flicker_freq := hz } : OpacityState).freq_pi = s.freq_pi := by
  have h1 : ¬ hz < 0 := not_lt.mpr (le_of_lt h)
  exact ⟨by simp [flicker, h1], rfl⟩

/-- C10 witness: `flicker 7` at frame rate 0 raises `ZeroDivisionError`. -/
theorem flicker_zero_rate_raises_witness :
    0 < (7 : ℚ) ∧
    (flicker 0 7 (opacity_init protoStim (3, 4)) =
      .error (.zeroDivisionError,
        { opacity_init protoStim (3, 4) with phase_pi := 0, flicker_freq := 7 }) ∧
     ({ opacity_init protoStim (3, 4) with phase_pi := 0, flicker_freq := 7 } : OpacityState).freq_pi
        = (opacity_init protoStim (3, 4)).freq_pi) :=
  ⟨by norm_num, flicker_zero_rate_raises 7 (opacity_init protoStim (3, 4)) (by norm_num)⟩

/-! ## C5: `_multiplex` is a no-op when not flickering -/

/-- C5: whenever the flickering flag is false, a multiplex cycle changes
nothing — for any sampler, the opacity-mode and the brightness-mode
`_multiplex` both return the state unchanged (no sample drawn, no phase
advance, no color write). -/
theorem multiplex_noop (nextO : OpacityState → OpacityState × ℚ) (s : OpacityState)
    (nextB : BrightnessState → BrightnessState × ℚ) (b : BrightnessState)
    (hs : s.flickering = false) (hb : b.flickering = false) :
    multiplex nextO s = s ∧ brightness_multiplex nextB b = b := by
  constructor
  · simp [multiplex, hs]
  · simp [brightness_multiplex, hb]

/-- C5 witness: a freshly constructed (non-flickering) stimulus of each
kind is left unchanged by a multiplex cycle with its own `_next` sampler. -/
theorem multiplex_noop_witness :
    brightness_init protoStim (3, 4) 8 (0, 0, 0) none = .ok plainBrightness ∧
    (opacity_init protoStim (3, 4)).flickering = false ∧
    plainBrightness.flickering = false ∧
    multiplex (fun s => (osc_step s, 0)) (opacity_init protoStim (3, 4)) =
      opacity_init protoStim (3, 4) ∧
    brightness_multiplex (fun s => (s, 0)) plainBrightness = plainBrightness :=
  ⟨rfl, rfl, rfl,
   multiplex_noop (fun s => (osc_step s, 0)) (opacity_init protoStim (3, 4))
     (fun s => (s, 0)) plainBrightness rfl rfl⟩

/-! ## C6: the luminance strategy's color assignment -/

/-- C6: for every 3×4 sample grid with entries in `[0, 1]`, the luminance
`_assign_mux_colors` sets each quadrant's filter color to the rescaled
column `v * 2 - 1` of the grid and leaves every base-stimulus color
attribute (indeed the whole base quadrant) unchanged. -/
theorem brightness_colors_rescaled (s : BrightnessState)
    (a b c d e f g h i j k l : ℚ)
    (_hrange : ∀ x ∈ [a, b, c, d, e, f, g, h, i, j, k, l], 0 ≤ x ∧ x ≤ 1) :
    quadColors (brightness_assign_mux_colors s [[a, b, c, d], [e, f, g, h], [i, j, k, l]]).image_filters
        = ((a * 2 - 1, e * 2 - 1, i * 2 - 1),
           (b * 2 - 1, f * 2 - 1, j * 2 - 1),
           (c * 2 - 1, g * 2 - 1, k * 2 - 1),
           (d * 2 - 1, h * 2 - 1, l * 2 - 1)) ∧
    (brightness_assign_mux_colors s [[a, b, c, d], [e, f, g, h], [i, j, k, l]]).stimuli
        = s.stimuli := by
  exact ⟨rfl, rfl⟩

/-- C6 witness: the spec's example column `(0.2, 0.5, 0.9)` (placed in
quadrant 0) produces the filter color `(-0.6, 0.0, 0.8)`. -/
theorem brightness_colors_rescaled_witness :
    (∀ x ∈ [(1 : ℚ)/5, 0, 0, 0, 1/2, 0, 0, 0, 9/10, 0, 0, 0], 0 ≤ x ∧ x ≤ 1) ∧
    (quadColors (brightness_assign_mux_colors plainBrightness
          [[1/5, 0, 0, 0], [1/2, 0, 0, 0], [9/10, 0, 0, 0]]).image_filters
        = (((1 : ℚ)/5 * 2 - 1, (1 : ℚ)/2 * 2 - 1, (9 : ℚ)/10 * 2 - 1),
           (0 * 2 - 1, 0 * 2 - 1, 0 * 2 - 1),
           (0 * 2 - 1, 0 * 2 - 1, 0 * 2 - 1),
           (0 * 2 - 1, 0 * 2 - 1, 0 * 2 - 1)) ∧
     (brightness_assign_mux_colors plainBrightness
          [[1/5, 0, 0, 0], [1/2, 0, 0, 0], [9/10, 0, 0, 0]]).stimuli
        = plainBrightness.stimuli) ∧
    ((1 : ℚ)/5 * 2 - 1, (1 : ℚ)/2 * 2 - 1, (9 : ℚ)/10 * 2 - 1)
        = (-(6 : ℚ)/10, 0, (8 : ℚ)/10) :=
  ⟨by norm_num,
   brightness_colors_rescaled plainBrightness (1/5) 0 0 0 (1/2) 0 0 0 (9/10) 0 0 0 (by norm_num),
   by norm_num⟩

/-! ## C8: position updates tile the quadrants and cascade -/

/-- C8: setting the position of a luminance-mode stimulus to `p` places the
four base quadrants at `p`, `p` shifted right by one frame width, `p`
shifted down (negative y) by one frame height, and `p` shifted by both; the
same update cascades to the filter overlay, and, when a mask overlay is
present, to it as well. -/
theorem set_pos_tiles_and_cascades (s : BrightnessState) (p : ℚ × ℚ) :
    quadPositions (brightness_set_pos s p).stimuli
        = (p, (p.1 + frame_res_x, p.2), (p.1, p.2 - frame_res_y),
           (p.1 + frame_res_x, p.2 - frame_res_y)) ∧
    quadPositions (brightness_set_pos s p).image_filters
        = (p, (p.1 + frame_res_x, p.2), (p.1, p.2 - frame_res_y),
           (p.1 + frame_res_x, p.2 - frame_res_y)) ∧
    (∀ m, s.masked = true → s.mask_stimuli = some m →
      (brightness_set_pos s p).mask_stimuli = some (set_pos m p) ∧
      quadPositions (set_pos m p)
          = (p, (p.1 + frame_res_x, p.2), (p.1, p.2 - frame_res_y),
             (p.1 + frame_res_x, p.2 - frame_res_y))) := by
  refine ⟨rfl, rfl, fun m hm hms => ⟨?_, rfl⟩⟩
  simp [brightness_set_pos, hm, hms]

/-- C8 witness: a masked stimulus moved to `(10, 20)`. -/
theorem set_pos_tiles_and_cascades_witness :
    ({ plainBrightness with
        masked := true
        mask_stimuli := some (quad_init protoStim (0, 0)) } : BrightnessState).masked = true ∧
    ({ plainBrightness with
        masked := true
        mask_stimuli := some (quad_init protoStim (0, 0)) } : BrightnessState).mask_stimuli
      = some (quad_init protoStim (0, 0)) ∧
    (quadPositions (brightness_set_pos
          { plainBrightness with
            masked := true
            mask_stimuli := some (quad_init protoStim (0, 0)) } ((10 : ℚ), (20 : ℚ))).stimuli
        = (((10 : ℚ), (20 : ℚ)), ((10 : ℚ) + frame_res_x, (20 : ℚ)),
           ((10 : ℚ), (20 : ℚ) - frame_res_y),
           ((10 : ℚ) + frame_res_x, (20 : ℚ) - frame_res_y)) ∧
     (brightness_set_pos
          { plainBrightness with
            masked := true
            mask_stimuli := some (quad_init protoStim (0, 0)) } ((10 : ℚ), (20 : ℚ))).mask_stimuli
        = some (set_pos (quad_init protoStim (0, 0)) ((10 : ℚ), (20 : ℚ)))) := by
  refine ⟨rfl, rfl, ?_, ?_⟩
  · exact (set_pos_tiles_and_cascades
      { plainBrightness with
        masked := true
        mask_stimuli := some (quad_init protoStim (0, 0)) } ((10 : ℚ), (20 : ℚ))).1
  · exact ((set_pos_tiles_and_cascades
      { plainBrightness with
        masked := true
        mask_stimuli := some (quad_init protoStim (0, 0)) } ((10 : ℚ), (20 : ℚ))).2.2
      (quad_init protoStim (0, 0)) rfl rfl).1

/-! ## C9: only circular masks are supported -/

/-- C9: constructing a `BrightnessFlickerStim` with any declared mask shape
other than `'circle'` raises `NotImplementedError` (no object state is
produced), while declaring `'circle'` or declaring no mask passes this
check and yields a constructed state. -/
theorem brightness_mask_shape_check (proto : StimAttrs) (pos : ℚ × ℚ) (size : ℕ)
    (winColor : ℚ × ℚ × ℚ) (shape : String) (h : shape ≠ "circle") :
    brightness_init proto pos size winColor (some shape) = .error .notImplementedError ∧
    (∃ b, brightness_init proto pos size winColor (some "circle") = .ok b) ∧
    (∃ b, brightness_init proto pos size winColor none = .ok b) := by
  refine ⟨?_, ⟨_, rfl⟩, ⟨_, rfl⟩⟩
  simp [brightness_init, h]

/-- C9 witness: `mask = "square"` is rejected at construction. -/
theorem brightness_mask_shape_check_witness :
    ("square" ≠ "circle") ∧
    (brightness_init protoStim (3, 4) 8 (0, 0, 0) (some "square")
        = .error .notImplementedError ∧
     (∃ b, brightness_init protoStim (3, 4) 8 (0, 0, 0) (some "circle") = .ok b) ∧
     (∃ b, brightness_init protoStim (3, 4) 8 (0, 0, 0) none = .ok b)) :=
  ⟨by decide,
   brightness_mask_shape_check protoStim (3, 4) 8 (0, 0, 0) "square" (by decide)⟩

/-! ## C7: the phase wrap invariant -/

/-- C7: for every initial phase in `[0, 2π)` and every nonnegative phase
increment, the phase is still in `[0, 2π)` after any number of consecutive
`sample()` calls (each call wraps with `np.mod(·, 2π)`).  Phases are stored
in π-units, so the stored value is multiplied by `π` to state the bound in
radians. -/
theorem phase_stays_in_range (f p : ℚ) (n : ℕ)
    (h0 : 0 ≤ p) (h1 : p < 2) (_hf : 0 ≤ f) :
    0 ≤ (iterate_phase f n p : ℝ) * Real.pi ∧
      (iterate_phase f n p : ℝ) * Real.pi < 2 * Real.pi := by
  have key : 0 ≤ iterate_phase f n p ∧ iterate_phase f n p < 2 := by
    induction n generalizing p with
    | zero => exact ⟨h0, h1⟩
    | succ n ih =>
      exact ih (next_phase p f) (wrap2_nonneg _) (wrap2_lt_two _)
  constructor
  · exact mul_nonneg (by exact_mod_cast key.1) Real.pi_pos.le
  · have h2 : (iterate_phase f n p : ℝ) < 2 := by exact_mod_cast key.2
    calc (iterate_phase f n p : ℝ) * Real.pi
        < 2 * Real.pi := by
          exact mul_lt_mul_of_pos_right h2 Real.pi_pos
      _ = 2 * Real.pi := rfl

/-- C7 witness: three samples at increment `3/4`·π starting from phase
`1`·π stay inside `[0, 2π)`. -/
theorem phase_stays_in_range_witness :
    0 ≤ (1 : ℚ) ∧ (1 : ℚ) < 2 ∧ 0 ≤ (3 / 4 : ℚ) ∧
    (0 ≤ (iterate_phase (3 / 4) 3 1 : ℝ) * Real.pi ∧
      (iterate_phase (3 / 4) 3 1 : ℝ) * Real.pi < 2 * Real.pi) :=
  ⟨by norm_num, by norm_num, by norm_num,
   phase_stays_in_range (3 / 4) 1 3 (by norm_num) (by norm_num) (by norm_num)⟩

/-! ## C1: sample placement in the multiplex cycle -/

/-- C1: in one multiplex cycle with the flickering flag true, the 12
samples drawn in order land in the 3×4 grid at `(channel = i / 4,
quadrant = i % 4)`, and the opacity strategy sets quadrant `q`'s RGB color
to the grid's column `q`, i.e. `(s_q, s_{4+q}, s_{8+q})` — for any sampler
`next` (in particular for a stub sampler returning `i` on the `i`-th call,
see the witness). -/
theorem mux_places_samples (next : OpacityState → OpacityState × ℚ)
    (s : OpacityState) (h : s.flickering = true) :
    (∀ i : Fin 12,
      ((reshape34 (drawSamples next 12 s).2).getD (i.val / 4) []).getD (i.val % 4) 0
        = (drawSamples next 12 s).2.getD i.val 0) ∧
    quadColors (multiplex next s).stimuli
      = (((drawSamples next 12 s).2.getD 0 0,
          (drawSamples next 12 s).2.getD 4 0,
          (drawSamples next 12 s).2.getD 8 0),
         ((drawSamples next 12 s).2.getD 1 0,
          (drawSamples next 12 s).2.getD 5 0,
          (drawSamples next 12 s).2.getD 9 0),
         ((drawSamples next 12 s).2.getD 2 0,
          (drawSamples next 12 s).2.getD 6 0,
          (drawSamples next 12 s).2.getD 10 0),
         ((drawSamples next 12 s).2.getD 3 0,
          (drawSamples next 12 s).2.getD 7 0,
          (drawSamples next 12 s).2.getD 11 0)) := by
  obtain ⟨a0, a1, a2, a3, a4, a5, a6, a7, a8, a9, a10, a11, hxs⟩ :=
    list_twelve (drawSamples next 12 s).2 (drawSamples_length next 12 s)
  constructor
  · intro i
    fin_cases i <;> simp [hxs, reshape34]
  · simp [multiplex, h, hxs, assign_mux_colors, quadColors, gridColumn, reshape34]

/-- C1 witness: with the stub sampler whose `i`-th call returns `i`, the
reshaped grid is `[[0,1,2,3],[4,5,6,7],[8,9,10,11]]` and the quadrant
colors are its columns `(0,4,8)`, `(1,5,9)`, `(2,6,10)`, `(3,7,11)`. -/
theorem mux_places_samples_witness :
    stubStart.flickering = true ∧
    (drawSamples stubNext 12 stubStart).2 = [0, 1, 2, 3, 4, 5, 6, 7, 8, 9, 10, 11] ∧
    reshape34 (drawSamples stubNext 12 stubStart).2
      = [[0, 1, 2, 3], [4, 5, 6, 7], [8, 9, 10, 11]] ∧
    quadColors (multiplex stubNext stubStart).stimuli
      = ((0, 4, 8), (1, 5, 9), (2, 6, 10), (3, 7, 11)) ∧
    (∀ i : Fin 12,
      ((reshape34 (drawSamples stubNext 12 stubStart).2).getD (i.val / 4) []).getD (i.val % 4) 0
        = (drawSamples stubNext 12 stubStart).2.getD i.val 0) := by
  have hsamp : (drawSamples stubNext 12 stubStart).2
      = [0, 1, 2, 3, 4, 5, 6, 7, 8, 9, 10, 11] := by
    norm_num [drawSamples, stubNext, stubStart, opacity_init]
  have hmux := mux_places_samples stubNext stubStart rfl
  refine ⟨rfl, hsamp, ?_, ?_, hmux.1⟩
  · rw [hsamp]; rfl
  · rw [hmux.2, hsamp]; norm_num

/-! ## C3: the inverted circular mask -/

/-- C3 counterexample: for `size = 8` the cell at the grid center (index
`(4, 4)`, coordinate `(0, 0)`) holds `-1`, not `+1` as the claim states,
and the farthest corner cell (index `(0, 0)`, coordinate `(-4, -4)`) holds
`+1`, not `-1`: `_inv_circle_mask` cuts out the inside of the circle and
passes the outside, the opposite of the claimed sign convention. -/
theorem circle_mask_sign_counterexample :
    ¬ ((inv_circle_mask 8).getD 4 []).getD 4 0 = 1 ∧
    ((inv_circle_mask 8).getD 4 []).getD 4 0 = -1 ∧
    ¬ ((inv_circle_mask 8).getD 0 []).getD 0 0 = -1 ∧
    ((inv_circle_mask 8).getD 0 []).getD 0 0 = 1 := by
  norm_num [inv_circle_mask, List.range_succ]

/-- C3 (amended): in the precomputed mask of side `2 * (size / 2)` (equal
to `size` for even `size`), the cell at index `(i, j)` — grid coordinate
`(i - size/2, j - size/2)` relative to the center — is `+1` exactly when
its Euclidean distance from the grid center exceeds `size / 2`, and `-1`
otherwise; in particular the grid-center point is `-1` (inside the
aperture, cut out) and the four farthest corners are `+1` (outside,
masked). -/
theorem getD_map_in {α β : Type} (l : List α) (f : α → β) (d : β) (da : α)
    (k : ℕ) (hk : k < l.length) :
    (l.map f).getD k d = f (l.getD k da) := by
  rw [List.getD_eq_getElem _ _ (by simpa using hk), List.getD_eq_getElem _ _ hk]
  simp

theorem getD_coords (n : ℕ) (r : ℤ) (k : ℕ) (hk : k < n) :
    ((List.range n).map (fun t : ℕ => (t : ℤ) - r)).getD k 0 = (k : ℤ) - r := by
  rw [getD_map_in _ _ 0 0 k (by simpa using hk)]
  congr 1
  rw [List.getD_eq_getElem _ _ (by simpa using hk)]
  simp

theorem circle_mask_values (size i j : ℕ)
    (hi : i < 2 * (size / 2)) (hj : j < 2 * (size / 2)) :
    ((inv_circle_mask size).getD i []).getD j 0
      = if ((((i : ℤ) - (size / 2 : ℕ)) ^ 2 + ((j : ℤ) - (size / 2 : ℕ)) ^ 2 : ℤ) : ℚ)
            ≤ ((size : ℚ) / 2) ^ 2
        then -1 else 1 := by
  simp only [inv_circle_mask]
  rw [getD_map_in _ _ [] 0 i (by simpa using hi)]
  rw [getD_map_in _ _ 0 0 j (by simpa using hj)]
  rw [getD_coords _ _ i hi, getD_coords _ _ j hj]

/-- C3 witness: at `size = 8` the amended statement evaluates to `-1` at
the center cell and `+1` at a farthest corner. -/
theorem circle_mask_values_witness :
    (4 < 2 * (8 / 2) ∧ 0 < 2 * (8 / 2)) ∧
    ((inv_circle_mask 8).getD 4 []).getD 4 0 = -1 ∧
    ((inv_circle_mask 8).getD 0 []).getD 0 0 = 1 := by
  refine ⟨⟨by norm_num, by norm_num⟩, ?_, ?_⟩
  · rw [circle_mask_values 8 4 4 (by norm_num) (by norm_num)]
    norm_num
  · rw [circle_mask_values 8 0 0 (by norm_num) (by norm_num)]
    norm_num
